import Mathlib

/-!
# Verification of the paginated, rate-limit-aware fetch core

Shallow embedding of `exporter_improved.py`: the retry wrapper `get_data`
(lines 31-48), the single-page fetcher `get_at_cursor` (lines 50-72) and the
accumulation loop `paginated_get` (lines 74-99).

The network is modelled as an oracle `resp : Nat -> Response` giving the
response to the k-th HTTP request that the process issues; every embedded
function threads the index of the next request, so request counts are
observable.  `sys.exit(1)` is modelled as a `fatal` outcome (tagged with the
site that raised it), an uncaught Python exception (`KeyError` on a missing
header or field, `TypeError` from indexing or iterating a non-container,
`ValueError` from `int()` or a negative sleep) as a `crash` outcome.  Calls
to `time.sleep` are logged as a list of durations.  The `while True` page
loop is driven by explicit fuel; `outOfFuel` marks runs the fuel did not
cover and appears in no proved specification.
-/

set_option maxRecDepth 10000

/-- Decoded JSON values, as produced by `r.json()`.  Numbers are integers:
no fractional literal occurs in any payload this development touches. -/
inductive Json where
  | null : Json
  | bool (b : Bool) : Json
  | num (n : Int) : Json
  | str (s : String) : Json
  | arr (xs : List Json) : Json
  | obj (kvs : List (String × Json)) : Json

/-- Association-list lookup, the semantics of `d[k]` on a Python dict whose
keys are unique (insertion order preserved, first match returned). -/
def assocLookup : List (String × Json) → String → Option Json
  | [], _ => none
  | (k1, v) :: rest, k => if k1 = k then some v else assocLookup rest k

/-- Indexing `d[k]`: `none` both when `d` is a dict without the key
(`KeyError`) and when `d` is not a dict at all (`TypeError`); each use site
notes which of the two is reachable. -/
def Json.lookup : Json → String → Option Json
  | .obj kvs, k => assocLookup kvs k
  | _, _ => none

/-- Python dict assignment `d[k] = v`: overwrite in place when the key is
present (keys are unique), append otherwise. -/
def dictSet : List (String × Json) → String → Json → List (String × Json)
  | [], k, v => [(k, v)]
  | (k1, v1) :: rest, k, v =>
      if k1 = k then (k1, v) :: rest
      else (k1, v1) :: dictSet rest k v

/-- Substring test on character lists, the semantics of Python
`sub in s` for strings (the empty string is in every string). -/
def hasInfix (sub : List Char) : List Char → Bool
  | [] => sub.isEmpty
  | c :: t => sub.isPrefixOf (c :: t) || hasInfix sub t

/-- Python `x == k` between a decoded JSON element and a string: true
exactly for the equal string (no other JSON value compares equal to a
`str`). -/
def eqStr : Json → String → Bool
  | .str s, k => s = k
  | _, _ => false

/-- Membership `k in j`: key membership for a dict, element equality for a
list, substring for a string; `none` is a `TypeError` on the remaining
scalars. -/
def pyContains (j : Json) (k : String) : Option Bool :=
  match j with
  | .obj kvs => some (kvs.any (fun kv => decide (kv.1 = k)))
  | .arr xs => some (xs.any (fun x => eqStr x k))
  | .str s => some (hasInfix k.toList s.toList)
  | _ => none

/-- Python `str()` of a decoded JSON value, as consumed by the blank-cursor
check `str(next_cursor).strip() == ""`.  Python renders a container's
elements too; only the fact that the rendering is bracket-delimited and
never blank reaches any caller, so elements are elided here. -/
def pyStr : Json → String
  | .null => "None"
  | .bool true => "True"
  | .bool false => "False"
  | .num n => toString n
  | .str s => s
  | .arr _ => "[...]"
  | .obj _ => "\x7b...\x7d"

/-- Iterating a JSON value, the semantics of `result.extend(x)`: a list
yields its elements, a dict its keys in insertion order, a string its
characters; `none` is a `TypeError` on the scalars. -/
def pyIter : Json → Option (List Json)
  | .arr xs => some xs
  | .obj kvs => some (kvs.map (fun kv => Json.str kv.1))
  | .str s => some (s.toList.map (fun c => Json.str (String.singleton c)))
  | _ => none

/-- Whitespace stripped from both ends, the semantics of `s.strip()`. -/
def trimChars (l : List Char) : List Char :=
  ((l.dropWhile Char.isWhitespace).reverse.dropWhile Char.isWhitespace).reverse

/-- Python `s.strip() == ""`: every character is whitespace (also true of
the empty string). -/
def isBlank (s : String) : Bool :=
  s.toList.all Char.isWhitespace

/-- Python `int(s)` on a header value: strip surrounding whitespace, an
optional sign, then a non-empty run of ASCII digits; `none` is a
`ValueError`. -/
def pyInt : String → Option Int :=
  fun s =>
    let core : List Char → Option Int := fun ds =>
      if ds.isEmpty || !ds.all Char.isDigit then none
      else some (ds.foldl (fun acc c => acc * 10 + (c.toNat - 48)) (0 : Int))
    match trimChars s.toList with
    | '-' :: ds => (core ds).map (fun n => -n)
    | '+' :: ds => core ds
    | ds => core ds

/-- One HTTP response as the transport hands it back: status, headers,
decoded JSON body and the reason phrase the error path prints. -/
structure Response where
  status_code : Nat
  headers : List (String × String)
  body : Json
  reason : String

/-- Header lookup `r.headers[k]`: requests exposes headers through a
case-insensitive dict. -/
def headerLookup : List (String × String) → String → Option String
  | [], _ => none
  | (k1, v) :: rest, k =>
      if k1.toList.map Char.toLower = k.toList.map Char.toLower then some v
      else headerLookup rest k

/-- `ADDITIONAL_SLEEP_TIME` (line 14): margin added to every server-directed
wait. -/
def ADDITIONAL_SLEEP_TIME : Int := 2

/-- `MAX_RETRIES` (line 15): bound on the attempts of one `get_data` call. -/
def MAX_RETRIES : Nat := 10

/-- How one `get_data` call ended. -/
inductive GetDataOut where
  | got (r : Response) : GetDataOut
  | exhausted : GetDataOut
  | crash : GetDataOut

/-- Result of one `get_data` call: outcome, index of the next unused
request, the sleeps performed in order, and the final value of the
`attempt` counter. -/
structure GetDataRes where
  out : GetDataOut
  idx : Nat
  sleeps : List Int
  attempt : Nat

/-- The `while attempt < MAX_RETRIES` loop of `get_data` (lines 35-45),
fuel-indexed with `fuel = MAX_RETRIES - attempt` so the guard is the
fuel hitting zero.  Each iteration issues one request and increments
`attempt` before inspecting the status; a non-429 status returns the
response at once; a 429 reads `Retry-After` (`KeyError` if absent,
`ValueError` if unparsable), sleeps the parsed value plus the fixed margin
(a negative duration would raise in `time.sleep`) and loops. -/
def get_data_loop (resp : Nat → Response) : Nat → Nat → Nat → GetDataRes
  | idx, attempt, 0 => ⟨.exhausted, idx, [], attempt⟩
  | idx, attempt, fuel+1 =>
    let r := resp idx
    let attempt1 := attempt + 1
    if r.status_code ≠ 429 then ⟨.got r, idx + 1, [], attempt1⟩
    else
      match headerLookup r.headers "Retry-After" with
      | none => ⟨.crash, idx + 1, [], attempt1⟩
      | some v =>
        match pyInt v with
        | none => ⟨.crash, idx + 1, [], attempt1⟩
        | some ra =>
          let st := ra + ADDITIONAL_SLEEP_TIME
          if st < 0 then ⟨.crash, idx + 1, [], attempt1⟩
          else
            let rest := get_data_loop resp (idx + 1) attempt1 fuel
            ⟨rest.out, rest.idx, st :: rest.sleeps, rest.attempt⟩

/-- `get_data` (lines 31-48) issuing its first request at index `idx` of
the oracle: `attempt` starts at 0 and the loop may run `MAX_RETRIES`
times. -/
def get_data_from (resp : Nat → Response) (idx : Nat) : GetDataRes :=
  get_data_loop resp idx 0 MAX_RETRIES

/-- `get_data` at the start of the request stream. -/
def get_data (resp : Nat → Response) : GetDataRes :=
  get_data_from resp 0

/-- The site that called `sys.exit(1)`: retry exhaustion (line 48), a
non-200 terminal status (line 58), an `ok: false` payload (line 64), or a
missing combine key caught as `KeyError` (line 92). -/
inductive Fatal where
  | retriesExceeded : Fatal
  | badStatus : Fatal
  | notOk : Fatal
  | missingKey : Fatal
deriving DecidableEq, Repr

/-- Python `d["ok"] is False`: identity with the boolean `False`, so only
the JSON literal `false` fires it. -/
def pyIsFalse : Json → Bool
  | .bool false => true
  | _ => false

/-- The Python value of a decoded JSON field carried into the cursor
channel, where `none` stands for Python `None`: JSON `null` decodes to
that same `None` (`str(None).strip()` is `"None"`, so the blank check
leaves it alone and the loop's `is None` test still stops); every other
value is carried as itself. -/
def cursorVal : Json → Option Json
  | .null => none
  | v => some v

/-- The cursor extraction of `get_at_cursor` (lines 66-71).  `some c`
stands for the extracted `next_cursor`, `some none` for the Python `None`
(reached when the envelope or the field is absent, when the value is
blank after `str(...).strip()`, or when the value is the JSON `null` that
decodes to `None` itself); the outer `none` is an uncaught `TypeError`
(a non-container `response_metadata`, or indexing a non-dict one whose
membership test succeeded).  Only called on a dict payload (the `d["ok"]`
access has already succeeded), where `in` is key membership. -/
def extract_next_cursor (d : Json) : Option (Option Json) :=
  match Json.lookup d "response_metadata" with
  | none => some none
  | some md =>
    match pyContains md "next_cursor", md with
    | none, _ => none
    | some false, _ => some none
    | some true, .obj _ =>
      match Json.lookup md "next_cursor" with
      | some nc => some (if isBlank (pyStr nc) then none else cursorVal nc)
      | none => some none
    | some true, _ => none

/-- Query parameters as the mutable Python dict the caller hands in. -/
abbrev Params := List (String × Json)

/-- How one `get_at_cursor` call ended. -/
inductive GACOut where
  | ok (next_cursor : Option Json) (d : Json) : GACOut
  | fatal (f : Fatal) : GACOut
  | crash : GACOut

/-- Result of one `get_at_cursor` call.  `params` is the dict after the
call: the function mutates the caller's dict in place (line 52), so the
value is returned to model the shared reference. -/
structure GACRes where
  out : GACOut
  params : Params
  idx : Nat
  sleeps : List Int

/-- `get_at_cursor` (lines 50-72): merge the cursor into the (shared)
params dict when present, fetch through the retry layer, exit on a non-200
status or an `ok: false` payload, else extract the next cursor and return
it with the decoded payload.  A missing `ok` key is an uncaught `KeyError`
(a non-dict payload an uncaught `TypeError`), both `crash`. -/
def get_at_cursor (resp : Nat → Response) (idx : Nat) (params : Params)
    (cursor : Option Json) : GACRes :=
  let params1 := match cursor with
    | none => params
    | some c => dictSet params "cursor" c
  let g := get_data_from resp idx
  match g.out with
  | .exhausted => ⟨.fatal .retriesExceeded, params1, g.idx, g.sleeps⟩
  | .crash => ⟨.crash, params1, g.idx, g.sleeps⟩
  | .got r =>
    if r.status_code ≠ 200 then ⟨.fatal .badStatus, params1, g.idx, g.sleeps⟩
    else
      match Json.lookup r.body "ok" with
      | none => ⟨.crash, params1, g.idx, g.sleeps⟩
      | some v =>
        if pyIsFalse v then ⟨.fatal .notOk, params1, g.idx, g.sleeps⟩
        else
          match extract_next_cursor r.body with
          | none => ⟨.crash, params1, g.idx, g.sleeps⟩
          | some nc => ⟨.ok nc r.body, params1, g.idx, g.sleeps⟩

/-- Item extraction of one loop iteration of `paginated_get` (lines
85-92): `result.extend(data)` when no key is given, else
`result.extend(data[combine_key])`.  `keyMissing` is the `KeyError` the
`except` clause catches; `typeErr` is the uncaught `TypeError` of
extending by a non-iterable value. -/
inductive ExtractOut where
  | items (xs : List Json) : ExtractOut
  | keyMissing : ExtractOut
  | typeErr : ExtractOut

/-- Extraction of the items one page contributes.  The payload here is
always a dict (its `ok` key was read in `get_at_cursor`), so the no-key
branch iterates its keys and the keyed branch can only fail with
`KeyError`. -/
def extractItems (combine_key : Option String) (d : Json) : ExtractOut :=
  match combine_key with
  | none =>
    match pyIter d with
    | none => .typeErr
    | some xs => .items xs
  | some k =>
    match Json.lookup d k with
    | none => .keyMissing
    | some v =>
      match pyIter v with
      | none => .typeErr
      | some xs => .items xs

/-- How one `paginated_get` call ended.  `outOfFuel` is the modelling
artifact of driving `while True` with fuel; no proved statement mentions
it. -/
inductive PGOut where
  | ok (result : List Json) : PGOut
  | fatal (f : Fatal) : PGOut
  | crash : PGOut
  | outOfFuel : PGOut

/-- Result of one `paginated_get` call: outcome, the shared params dict
after the call, total requests issued, pages fetched, the params each page
request was sent with (in order), and all sleeps performed. -/
structure PGRes where
  out : PGOut
  params : Params
  idx : Nat
  page_count : Nat
  sent : List Params
  sleeps : List Int

/-- The `while True` loop of `paginated_get` (lines 79-97), fuel-indexed.
Each iteration bumps `page_count`, fetches one page at the current cursor
(through the shared, mutated params dict), extends `result` with the
page's items — aborting on a missing combine key — and loops on the
returned cursor until it is `None`. -/
def paginated_get_loop (resp : Nat → Response) (combine_key : Option String) :
    Nat → Option Json → Params → List Json → Nat → Nat → List Params → List Int → PGRes
  | 0, _, params, _, page_count, idx, sent, sleeps =>
      ⟨.outOfFuel, params, idx, page_count, sent, sleeps⟩
  | fuel+1, cursor, params, result, page_count, idx, sent, sleeps =>
      let pc := page_count + 1
      let g := get_at_cursor resp idx params cursor
      let sent1 := sent ++ [g.params]
      let sleeps1 := sleeps ++ g.sleeps
      match g.out with
      | .fatal f => ⟨.fatal f, g.params, g.idx, pc, sent1, sleeps1⟩
      | .crash => ⟨.crash, g.params, g.idx, pc, sent1, sleeps1⟩
      | .ok nc d =>
        match extractItems combine_key d with
        | .keyMissing => ⟨.fatal .missingKey, g.params, g.idx, pc, sent1, sleeps1⟩
        | .typeErr => ⟨.crash, g.params, g.idx, pc, sent1, sleeps1⟩
        | .items xs =>
          let result1 := result ++ xs
          match nc with
          | none => ⟨.ok result1, g.params, g.idx, pc, sent1, sleeps1⟩
          | some c =>
            paginated_get_loop resp combine_key fuel (some c) g.params result1 pc g.idx
              sent1 sleeps1

/-- `paginated_get` (lines 74-99): cursor starts absent, result empty,
page count zero; the request stream starts at index 0. -/
def paginated_get (resp : Nat → Response) (params : Params)
    (combine_key : Option String) (fuel : Nat) : PGRes :=
  paginated_get_loop resp combine_key fuel none params [] 0 0 [] []

/-! ## A well-behaved paginated server

The universally quantified pagination claims range over an arbitrary finite
sequence of pages.  A page is its item list plus the continuation token the
server attaches (`none` on the last page); the server answers the k-th HTTP
request of the process with the k-th page, which is exactly what the
strictly sequential client observes. -/

/-- One page as the server emits it. -/
structure SrvPage where
  items : List Json
  next : Option String

/-- The JSON body of a page: `ok: true`, the item array under the
caller's key, and the pagination envelope exactly when a token exists. -/
def pageBody (key : String) (p : SrvPage) : Json :=
  Json.obj ([("ok", Json.bool true), (key, Json.arr p.items)] ++
    (match p.next with
     | some c => [("response_metadata", Json.obj [("next_cursor", Json.str c)])]
     | none => []))

/-- The HTTP response carrying one page. -/
def pageResp (key : String) (p : SrvPage) : Response :=
  ⟨200, [], pageBody key p, "OK"⟩

/-- The request oracle of a server holding `pages`: the k-th request gets
the k-th page.  Requests past the last page (which a conforming client
never issues) get a 500. -/
def serverOf (key : String) (pages : List SrvPage) : Nat → Response :=
  fun k =>
    match pages.get? k with
    | some p => pageResp key p
    | none => ⟨500, [], Json.obj [("ok", Json.bool false)], "Internal Server Error"⟩

/-- A terminating page sequence: every page but the last carries a
non-blank token, the last carries none. -/
def goodChain : List SrvPage → Bool
  | [] => true
  | p :: rest =>
      (match rest, p.next with
       | [], none => true
       | [], some _ => false
       | _ :: _, none => false
       | _ :: _, some c => !isBlank c) && goodChain rest

/-- The in-order concatenation of the per-page item lists. -/
def itemsOf (pages : List SrvPage) : List Json :=
  (pages.map SrvPage.items).flatten

/-- The keys of a JSON object, in insertion order, as iterating the dict
yields them. -/
def objKeys : Json → List Json
  | .obj kvs => kvs.map (fun kv => Json.str kv.1)
  | _ => []

/-- The cursor `get_at_cursor` reports for one server page: the token,
unless it is absent or blank. -/
def cursorOf (pg : SrvPage) : Option Json :=
  match pg.next with
  | some c => if isBlank c then none else some (Json.str c)
  | none => none

/-- The params dict after the cursor merge of one page request (line 52):
untouched on the first page, `params["cursor"] = cursor` afterwards. -/
def stepParams (p : Params) (cur : Option Json) : Params :=
  match cur with
  | none => p
  | some c => dictSet p "cursor" c

/-- The params each successive page request is sent with, starting from
dict `p` and incoming cursor `cur`: each page mutates the shared dict and
hands the next page its token. -/
def paramsTrace (p : Params) (cur : Option Json) : List SrvPage → List Params
  | [] => []
  | pg :: rest =>
      stepParams p cur :: paramsTrace (stepParams p cur) (pg.next.map Json.str) rest

/-- The state of the shared params dict after the whole run. -/
def lastParams (p : Params) (cur : Option Json) : List SrvPage → Params
  | [] => p
  | pg :: rest => lastParams (stepParams p cur) (pg.next.map Json.str) rest

/-! ## Concrete fixtures for the scenario claims -/

/-- A 429 response carrying the given `Retry-After` value. -/
def rateLimited (ra : String) : Response :=
  ⟨429, [("Retry-After", ra)], Json.null, "Too Many Requests"⟩

/-- A minimal 200 success payload. -/
def okBody : Json := Json.obj [("ok", Json.bool true)]

/-- A minimal 200 success response. -/
def okResp : Response := ⟨200, [], okBody, "OK"⟩

/-- The rate-limit-recovery scenario: 429 with `Retry-After: 3`, 429 with
`Retry-After: 1`, then success. -/
def recoverySeq : Nat → Response
  | 0 => rateLimited "3"
  | 1 => rateLimited "1"
  | _ => okResp

/-- The retry-exhaustion scenario: every request is rate-limited. -/
def always429 : Nat → Response :=
  fun _ => rateLimited "1"

/-- A 429 response without a `Retry-After` header. -/
def bare429 : Nat → Response :=
  fun _ => ⟨429, [("Content-Type", "application/json")], Json.null, "Too Many Requests"⟩

/-- A 201 response with an `ok: true` payload: 2xx but not 200. -/
def created201 : Nat → Response :=
  fun _ => ⟨201, [], okBody, "Created"⟩

/-- A server always answering the minimal success payload (no items key,
no pagination envelope). -/
def bareOkServer : Nat → Response :=
  fun _ => okResp

/-- The base query parameters of the concrete runs. -/
def chParams : Params := [("channel", Json.str "C123")]

/-- A concrete two-page server under the key `"messages"`. -/
def twoPages : List SrvPage :=
  [⟨[Json.num 1, Json.num 2], some "c1"⟩, ⟨[Json.num 3], none⟩]

/-! ## Helper lemmas -/

/-- A non-429 response is returned by the retry layer at once: one
request, no sleep, one attempt. -/
theorem get_data_from_non429 (resp : Nat → Response) (idx : Nat)
    (h : (resp idx).status_code ≠ 429) :
    get_data_from resp idx = ⟨.got (resp idx), idx + 1, [], 1⟩ := by
  show get_data_loop resp idx 0 (9 + 1) = _
  simp only [get_data_loop]
  rw [if_pos h]

/-- The `ok` flag of a server page reads back `true`. -/
theorem lookup_ok_pageBody (key : String) (pg : SrvPage) :
    Json.lookup (pageBody key pg) "ok" = some (Json.bool true) := by
  simp [pageBody, Json.lookup, assocLookup]

/-- Cursor extraction on a server page yields its token, blanks filtered. -/
theorem extract_pageBody (key : String) (pg : SrvPage)
    (hk2 : key ≠ "response_metadata") :
    extract_next_cursor (pageBody key pg) = some (cursorOf pg) := by
  cases hnext : pg.next with
  | none =>
    simp [pageBody, extract_next_cursor, Json.lookup, assocLookup, hnext, cursorOf, hk2]
  | some c =>
    simp [pageBody, extract_next_cursor, Json.lookup, assocLookup, hnext, cursorOf, hk2,
      pyContains, pyStr, cursorVal]

/-- One page fetch against a server page: success, the page's cursor, and
the shared dict mutated by exactly the cursor merge. -/
theorem get_at_cursor_page (resp : Nat → Response) (idx : Nat) (key : String)
    (pg : SrvPage) (p : Params) (cur : Option Json)
    (hk2 : key ≠ "response_metadata")
    (hr : resp idx = pageResp key pg) :
    get_at_cursor resp idx p cur =
      ⟨.ok (cursorOf pg) (pageBody key pg), stepParams p cur, idx + 1, []⟩ := by
  have hst : (resp idx).status_code ≠ 429 := by rw [hr]; simp [pageResp]
  have hgd := get_data_from_non429 resp idx hst
  unfold get_at_cursor
  rw [hgd, hr]
  simp only [pageResp]
  simp [lookup_ok_pageBody, extract_pageBody key pg hk2, pyIsFalse, stepParams]

/-- Item extraction with the caller's key on a server page yields the
page's items. -/
theorem extractItems_some_pageBody (key : String) (pg : SrvPage)
    (hk1 : key ≠ "ok") :
    extractItems (some key) (pageBody key pg) = .items pg.items := by
  simp [extractItems, pageBody, Json.lookup, assocLookup, pyIter, Ne.symm hk1]

/-- Item extraction without a key on a server page yields the body's keys
in order. -/
theorem extractItems_none_pageBody (key : String) (pg : SrvPage) :
    extractItems none (pageBody key pg) = .items (objKeys (pageBody key pg)) := rfl

/-- The accumulation loop run against a terminating server, from an
arbitrary loop state: one request per page, the per-page extractions
concatenated in order onto the accumulator, the params trace exactly as
`paramsTrace` describes it, and no sleeps. -/
theorem paginated_loop_server (resp : Nat → Response) (key : String)
    (ck : Option String) (pitems : SrvPage → List Json)
    (hk2 : key ≠ "response_metadata")
    (hext : ∀ pg, extractItems ck (pageBody key pg) = .items (pitems pg)) :
    ∀ (l : List SrvPage) (cur : Option Json) (p : Params) (acc : List Json)
      (n i : Nat) (s : List Params) (sl : List Int) (fuel : Nat),
      l ≠ [] → goodChain l = true → l.length ≤ fuel →
      (∀ j pg, l.get? j = some pg → resp (i + j) = pageResp key pg) →
      paginated_get_loop resp ck fuel cur p acc n i s sl =
        ⟨.ok (acc ++ (l.map pitems).flatten), lastParams p cur l, i + l.length,
         n + l.length, s ++ paramsTrace p cur l, sl⟩ := by
  intro l
  induction l with
  | nil => intro cur p acc n i s sl fuel hne; exact absurd rfl hne
  | cons pg rest ih =>
    intro cur p acc n i s sl fuel _ hgc hfuel hresp
    obtain ⟨f, rfl⟩ : ∃ f, fuel = f + 1 := by
      cases fuel with
      | zero => simp at hfuel
      | succ f => exact ⟨f, rfl⟩
    have hr0 : resp i = pageResp key pg := by simpa using hresp 0 pg rfl
    simp only [paginated_get_loop]
    rw [get_at_cursor_page resp i key pg p cur hk2 hr0]
    simp only [hext pg]
    rw [goodChain.eq_def, Bool.and_eq_true] at hgc
    obtain ⟨hgc0, hgc1⟩ := hgc
    cases rest with
    | nil =>
      have hn : pg.next = none := by
        cases h : pg.next with
        | none => rfl
        | some c => rw [h] at hgc0; simp at hgc0
      simp [cursorOf, hn, lastParams, paramsTrace, stepParams]
    | cons pg2 rest2 =>
      obtain ⟨c, hn, hbl⟩ : ∃ c, pg.next = some c ∧ isBlank c = false := by
        cases h : pg.next with
        | none => rw [h] at hgc0; simp at hgc0
        | some c =>
          refine ⟨c, rfl, ?_⟩
          rw [h] at hgc0
          simpa using hgc0
      have hcur : cursorOf pg = some (Json.str c) := by
        simp [cursorOf, hn, hbl]
      rw [hcur]
      have hresp1 : ∀ j pg', (pg2 :: rest2).get? j = some pg' →
          resp (i + 1 + j) = pageResp key pg' := by
        intro j pg' hj
        have h2 := hresp (j + 1) pg' (by simpa using hj)
        have h3 : i + (j + 1) = i + 1 + j := by omega
        rwa [h3] at h2
      have hfuel1 : (pg2 :: rest2).length ≤ f := by
        simp only [List.length_cons] at hfuel ⊢
        omega
      simp only [List.append_nil]
      rw [ih (some (Json.str c)) (stepParams p cur) (acc ++ pitems pg) (n + 1) (i + 1)
        (s ++ [stepParams p cur]) sl f (List.cons_ne_nil pg2 rest2) hgc1 hfuel1 hresp1]
      simp [lastParams, paramsTrace, hn, List.append_assoc, List.length_cons]
      omega

/-- Writing a key then reading it back. -/
theorem assocLookup_dictSet_self (l : Params) (k : String) (v : Json) :
    assocLookup (dictSet l k v) k = some v := by
  induction l with
  | nil => simp [dictSet, assocLookup]
  | cons kv rest ih =>
    obtain ⟨k1, v1⟩ := kv
    by_cases h : k1 = k
    · simp [dictSet, assocLookup, h]
    · simp [dictSet, assocLookup, h, ih]

/-- Writing a key leaves every other key unchanged. -/
theorem assocLookup_dictSet_other (l : Params) (k : String) (v : Json) (k' : String)
    (h : k' ≠ k) :
    assocLookup (dictSet l k v) k' = assocLookup l k' := by
  induction l with
  | nil => simp [dictSet, assocLookup, Ne.symm h]
  | cons kv rest ih =>
    obtain ⟨k1, v1⟩ := kv
    by_cases h1 : k1 = k
    · subst h1
      simp [dictSet, assocLookup, Ne.symm h]
    · by_cases h2 : k1 = k'
      · simp [dictSet, assocLookup, h1, h2, h]
      · simp [dictSet, assocLookup, h1, h2, ih]

/-- A dict key no entry holds reads back `none`. -/
theorem any_key_false_of_assocLookup_none (kvs : List (String × Json)) (k : String)
    (h : assocLookup kvs k = none) :
    (kvs.any fun kv => decide (kv.1 = k)) = false := by
  induction kvs with
  | nil => simp
  | cons kv rest ih =>
    obtain ⟨k1, v1⟩ := kv
    by_cases h1 : k1 = k
    · simp [assocLookup, h1] at h
    · rw [assocLookup] at h
      simp [h1] at h
      simp [h1, ih h]

/-- A dict key some entry holds is a member. -/
theorem any_key_true_of_assocLookup_some (kvs : List (String × Json)) (k : String)
    (v : Json) (h : assocLookup kvs k = some v) :
    (kvs.any fun kv => decide (kv.1 = k)) = true := by
  induction kvs with
  | nil => simp [assocLookup] at h
  | cons kv rest ih =>
    obtain ⟨k1, v1⟩ := kv
    by_cases h1 : k1 = k
    · simp [h1]
    · rw [assocLookup] at h
      simp [h1] at h
      simp [h1, ih h]

/-- The first entry of a params trace is the start dict with the incoming
cursor merged. -/
theorem paramsTrace_head_eq (l : List SrvPage) (p : Params) (cur : Option Json)
    (q : Params) (h : (paramsTrace p cur l).get? 0 = some q) :
    q = stepParams p cur := by
  cases l with
  | nil => simp [paramsTrace] at h
  | cons pg rest =>
    rw [paramsTrace] at h
    simpa using h.symm

/-- Every later entry of a params trace carries under `"cursor"` exactly
the token of the page before it. -/
theorem paramsTrace_succ_cursor (l : List SrvPage) :
    ∀ (p : Params) (cur : Option Json) (j : Nat) (pg : SrvPage) (c : String) (q : Params),
      l.get? j = some pg → pg.next = some c →
      (paramsTrace p cur l).get? (j + 1) = some q →
      assocLookup q "cursor" = some (Json.str c) := by
  induction l with
  | nil => intro p cur j pg c q hj; simp at hj
  | cons pg0 rest ih =>
    intro p cur j pg c q hj hn hq
    cases j with
    | zero =>
      have hpg : pg0 = pg := by simpa using hj
      subst hpg
      rw [paramsTrace] at hq
      rw [List.get?_cons_succ, hn] at hq
      have hhead := paramsTrace_head_eq rest (stepParams p cur)
        (Option.map Json.str (some c)) q hq
      rw [hhead]
      exact assocLookup_dictSet_self _ _ _
    | succ j1 =>
      rw [paramsTrace] at hq
      exact ih _ _ j1 pg c q (by simpa using hj) hn (by simpa using hq)

/-- Two successive entries of a params trace differ by exactly the cursor
write of the page between them. -/
theorem paramsTrace_step (l : List SrvPage) :
    ∀ (p : Params) (cur : Option Json) (j : Nat) (pg : SrvPage) (c : String) (q q' : Params),
      l.get? j = some pg → pg.next = some c →
      (paramsTrace p cur l).get? j = some q →
      (paramsTrace p cur l).get? (j + 1) = some q' →
      q' = dictSet q "cursor" (Json.str c) := by
  induction l with
  | nil => intro p cur j pg c q q' hj; simp at hj
  | cons pg0 rest ih =>
    intro p cur j pg c q q' hj hn hq hq'
    cases j with
    | zero =>
      have hpg : pg0 = pg := by simpa using hj
      subst hpg
      have hq0 : q = stepParams p cur := paramsTrace_head_eq _ _ _ _ hq
      rw [paramsTrace] at hq'
      rw [List.get?_cons_succ, hn] at hq'
      have := paramsTrace_head_eq rest (stepParams p cur)
        (Option.map Json.str (some c)) q' hq'
      rw [this, hq0]
      rfl
    | succ j1 =>
      rw [paramsTrace] at hq hq'
      exact ih _ _ j1 pg c q q' (by simpa using hj) hn (by simpa using hq)
        (by simpa using hq')

/-- A JSON-null `next_cursor` decodes to the Python `None` itself:
`str(None).strip()` is `"None"`, not blank, so the blank check does not
fire, and the extracted cursor is null — pagination stops exactly as for
an absent field. -/
theorem extract_next_cursor_json_null (d md : Json)
    (h : Json.lookup d "response_metadata" = some md)
    (hnc : Json.lookup md "next_cursor" = some Json.null) :
    extract_next_cursor d = some none := by
  have hobj : ∃ kvs, md = Json.obj kvs := by
    cases md with
    | obj kvs => exact ⟨kvs, rfl⟩
    | null => simp [Json.lookup] at hnc
    | bool b => simp [Json.lookup] at hnc
    | num n => simp [Json.lookup] at hnc
    | str s1 => simp [Json.lookup] at hnc
    | arr xs => simp [Json.lookup] at hnc
  obtain ⟨kvs, rfl⟩ := hobj
  rw [Json.lookup] at hnc
  simp only [extract_next_cursor]
  rw [h]
  simp only [pyContains]
  rw [any_key_true_of_assocLookup_some kvs "next_cursor" _ hnc]
  simp only [Json.lookup]
  rw [hnc]
  simp [pyStr, isBlank, cursorVal]

/-! ## The claims -/

/-- C1, counterexample: on the response sequence {429 Retry-After=3,
429 Retry-After=1, 200}, the fetch does succeed after backoff sleeps of 5
and 3, but the attempt counter does not end at 2: the code increments it
on the success response too. -/
theorem c1_counterexample :
    (get_data recoverySeq).out = .got okResp ∧
    (get_data recoverySeq).sleeps = [5, 3] ∧
    (get_data recoverySeq).attempt ≠ 2 :=
  ⟨rfl, rfl, by decide⟩

/-- C1, as amended: on that sequence `get_data` returns the success
response after exactly two backoff sleeps of 5 and 3 time units, issuing
3 requests, and the attempt counter ends at 3 — it increments on every
response, not only on rate-limited ones. -/
theorem c1_amended :
    get_data recoverySeq = ⟨.got okResp, 3, [5, 3], 3⟩ :=
  rfl

/-- C2: under 10 consecutive 429 responses with `MAX_RETRIES = 10`,
`get_data` issues exactly 10 requests (the next-request index ends at 10,
so no 11th is reached), ends exhausted, and a fetch built on it aborts
fatally with the retry-exhaustion error instead of returning any result
list. -/
theorem c2_retry_exhaustion :
    get_data always429 = ⟨.exhausted, 10, List.replicate 10 3, 10⟩ ∧
    (paginated_get always429 chParams (some "messages") 1).out
      = .fatal .retriesExceeded ∧
    (paginated_get always429 chParams (some "messages") 1).idx = 10 :=
  ⟨rfl, rfl, rfl⟩

/-- C10: a 429 response with no `Retry-After` header makes `get_data`
crash with the unhandled header lookup error after its single request —
no fatal exit, no sleep, no default wait. -/
theorem c10_missing_retry_after (resp : Nat → Response)
    (h429 : (resp 0).status_code = 429)
    (hh : headerLookup (resp 0).headers "Retry-After" = none) :
    get_data resp = ⟨.crash, 1, [], 1⟩ := by
  show get_data_loop resp 0 0 (9 + 1) = _
  rw [get_data_loop.eq_2]
  simp only [if_neg (show ¬(resp 0).status_code ≠ 429 by simp [h429]), hh]

/-- C10, witness: the concrete header-less 429. -/
theorem c10_witness : get_data bare429 = ⟨.crash, 1, [], 1⟩ :=
  c10_missing_retry_after bare429 rfl rfl

/-- C4, counterexample: a 201 response — 2xx, with an `ok: true` payload —
is aborted fatally, because the code tests `status != 200`, not
"non-2xx". -/
theorem c4_counterexample :
    (get_at_cursor created201 0 chParams none).out = .fatal .badStatus ∧
    (200 ≤ 201 ∧ 201 < 300) ∧
    Json.lookup (created201 0).body "ok" = some (Json.bool true) :=
  ⟨rfl, by decide, rfl⟩

/-- C4, as amended: `get_at_cursor` aborts fatally exactly when the final
post-retry response has a status other than 200 or a payload whose `ok`
flag is the boolean `false`; every 200 response whose payload carries a
non-`false` `ok` flag and a well-formed pagination envelope is returned
as the decoded payload with its (possibly null) next cursor. -/
theorem c4_amended (resp : Nat → Response) (idx : Nat) (p : Params)
    (cur : Option Json) (r : Response)
    (hgot : (get_data_from resp idx).out = .got r) :
    (r.status_code ≠ 200 →
       (get_at_cursor resp idx p cur).out = .fatal .badStatus) ∧
    (Json.lookup r.body "ok" = some (Json.bool false) →
       r.status_code = 200 →
       (get_at_cursor resp idx p cur).out = .fatal .notOk) ∧
    (∀ v nc, r.status_code = 200 → Json.lookup r.body "ok" = some v →
       pyIsFalse v = false → extract_next_cursor r.body = some nc →
       (get_at_cursor resp idx p cur).out = .ok nc r.body) := by
  refine ⟨?_, ?_, ?_⟩
  · intro h
    simp only [get_at_cursor]
    rw [hgot]
    simp [h]
  · intro hok h200
    simp only [get_at_cursor]
    rw [hgot]
    simp [h200, hok, pyIsFalse]
  · intro v nc h200 hok hvf hext
    simp only [get_at_cursor]
    rw [hgot]
    simp [h200, hok, hvf, hext]

/-- C4, witness: a plain 200 `ok: true` payload is returned with a null
cursor. -/
theorem c4_witness :
    (get_at_cursor bareOkServer 0 chParams none).out = .ok none okResp.body :=
  (c4_amended bareOkServer 0 chParams none okResp rfl).2.2 (Json.bool true) none
    rfl rfl rfl rfl

/-- C5: a successful page payload that lacks the requested combine key
makes the whole fetch abort fatally with the malformed-page error — the
page is not skipped and no result list is produced. -/
theorem c5_missing_key_fatal (k : String) (body : Json) (oc : Option Json)
    (params : Params) (fuel : Nat)
    (hok : Json.lookup body "ok" = some (Json.bool true))
    (hmiss : Json.lookup body k = none)
    (hext : extract_next_cursor body = some oc) :
    (paginated_get (fun _ => ⟨200, [], body, "OK"⟩) params (some k) (fuel + 1)).out
      = .fatal .missingKey := by
  have hgd := get_data_from_non429 (fun _ => (⟨200, [], body, "OK"⟩ : Response)) 0
    (by simp)
  have hgac : get_at_cursor (fun _ => (⟨200, [], body, "OK"⟩ : Response)) 0 params none
      = ⟨.ok oc body, params, 1, []⟩ := by
    simp only [get_at_cursor]
    rw [hgd]
    simp [hok, hext, pyIsFalse]
  simp only [paginated_get, paginated_get_loop]
  rw [hgac]
  simp [extractItems, hmiss]

/-- C5, witness: the minimal success payload fetched under the key
`"messages"`. -/
theorem c5_witness :
    (paginated_get (fun _ => ⟨200, [], okBody, "OK"⟩) chParams (some "messages")
      (0 + 1)).out = .fatal .missingKey :=
  c5_missing_key_fatal "messages" okBody none chParams 0 rfl rfl rfl

/-- C6: a pagination envelope that is absent, lacks the `next_cursor`
field, or carries an empty or whitespace-only token is treated
identically — the extracted cursor is null — and a null cursor ends the
page loop after the page that produced it. -/
theorem c6_blank_cursor :
    (∀ d, Json.lookup d "response_metadata" = none →
       extract_next_cursor d = some none) ∧
    (∀ d kvs, Json.lookup d "response_metadata" = some (Json.obj kvs) →
       assocLookup kvs "next_cursor" = none →
       extract_next_cursor d = some none) ∧
    (∀ d md s, Json.lookup d "response_metadata" = some md →
       Json.lookup md "next_cursor" = some (Json.str s) → isBlank s = true →
       extract_next_cursor d = some none) ∧
    (∀ (resp : Nat → Response) (params : Params) (ck : Option String)
       (fuel : Nat) (d : Json) (xs : List Json),
       (get_at_cursor resp 0 params none).out = .ok none d →
       extractItems ck d = .items xs →
       (paginated_get resp params ck (fuel + 1)).out = .ok xs ∧
       (paginated_get resp params ck (fuel + 1)).page_count = 1) := by
  refine ⟨?_, ?_, ?_, ?_⟩
  · intro d h
    simp [extract_next_cursor, h]
  · intro d kvs h hnc
    simp [extract_next_cursor, h, pyContains,
      any_key_false_of_assocLookup_none kvs "next_cursor" hnc]
  · intro d md s h hnc hbl
    have hobj : ∃ kvs, md = Json.obj kvs := by
      cases md with
      | obj kvs => exact ⟨kvs, rfl⟩
      | null => simp [Json.lookup] at hnc
      | bool b => simp [Json.lookup] at hnc
      | num n => simp [Json.lookup] at hnc
      | str s1 => simp [Json.lookup] at hnc
      | arr xs => simp [Json.lookup] at hnc
    obtain ⟨kvs, rfl⟩ := hobj
    rw [Json.lookup] at hnc
    simp only [extract_next_cursor]
    rw [h]
    simp only [pyContains]
    rw [any_key_true_of_assocLookup_some kvs "next_cursor" _ hnc]
    simp only [Json.lookup]
    rw [hnc]
    simp [pyStr, hbl]
  · intro resp params ck fuel d xs hga hitems
    refine ⟨?_, ?_⟩ <;>
    · simp only [paginated_get, paginated_get_loop]
      rw [hga]
      simp [hitems]

/-- C6, witness: a whitespace-only `next_cursor` under a well-formed
envelope extracts to null. -/
theorem c6_witness :
    extract_next_cursor (Json.obj [("ok", Json.bool true),
      ("response_metadata", Json.obj [("next_cursor", Json.str "  ")])])
      = some none :=
  c6_blank_cursor.2.2.1 _ (Json.obj [("next_cursor", Json.str "  ")]) "  " rfl rfl rfl

/-- C3: against any non-empty terminating page sequence, the fetch issues
exactly one request per page (so exactly N page fetches, at least one even
when every page is empty), returns the in-order concatenation of the
per-page item lists, and the result length is the sum of the page sizes.
The key hypotheses exclude a collision between the caller's combine key
and the two envelope fields of the page encoding. -/
theorem c3_pagination_completeness (key : String) (pages : List SrvPage)
    (params : Params) (fuel : Nat)
    (hk1 : key ≠ "ok") (hk2 : key ≠ "response_metadata")
    (hne : pages ≠ []) (hgc : goodChain pages = true)
    (hfuel : pages.length ≤ fuel) :
    (paginated_get (serverOf key pages) params (some key) fuel).out
      = .ok (itemsOf pages) ∧
    (paginated_get (serverOf key pages) params (some key) fuel).page_count
      = pages.length ∧
    (paginated_get (serverOf key pages) params (some key) fuel).idx
      = pages.length ∧
    (itemsOf pages).length = (pages.map (fun p => p.items.length)).sum := by
  have hresp : ∀ j pg, pages.get? j = some pg →
      serverOf key pages (0 + j) = pageResp key pg := by
    intro j pg hj
    rw [List.get?_eq_getElem?] at hj
    simp [serverOf, hj]
  have hmain := paginated_loop_server (serverOf key pages) key (some key)
    SrvPage.items hk2 (fun pg => extractItems_some_pageBody key pg hk1)
    pages none params [] 0 0 [] [] fuel hne hgc hfuel hresp
  rw [paginated_get, hmain]
  refine ⟨by simp [itemsOf], by simp, by simp, ?_⟩
  simp only [itemsOf, List.length_flatten, List.map_map]
  rfl

/-- C3, witness: the concrete two-page run. -/
theorem c3_witness :
    (paginated_get (serverOf "messages" twoPages) chParams (some "messages") 2).out
      = .ok (itemsOf twoPages) ∧
    (paginated_get (serverOf "messages" twoPages) chParams (some "messages") 2).page_count
      = twoPages.length ∧
    (paginated_get (serverOf "messages" twoPages) chParams (some "messages") 2).idx
      = twoPages.length ∧
    (itemsOf twoPages).length = (twoPages.map (fun p => p.items.length)).sum :=
  c3_pagination_completeness "messages" twoPages chParams 2 (by decide) (by decide)
    (by simp [twoPages]) rfl (by decide)

/-- C7: the first page request of a run carries no `cursor` parameter
(the caller's dict not holding one), and the request of every later page
carries under `cursor` exactly the token the server attached to the page
before it. -/
theorem c7_request_shape (key : String) (pages : List SrvPage)
    (params : Params) (fuel : Nat)
    (hk1 : key ≠ "ok") (hk2 : key ≠ "response_metadata")
    (hne : pages ≠ []) (hgc : goodChain pages = true)
    (hfuel : pages.length ≤ fuel)
    (hcur : assocLookup params "cursor" = none) :
    (∀ q, (paginated_get (serverOf key pages) params (some key) fuel).sent.get? 0
       = some q → assocLookup q "cursor" = none) ∧
    (∀ j pg c q, pages.get? j = some pg → pg.next = some c →
       (paginated_get (serverOf key pages) params (some key) fuel).sent.get? (j + 1)
         = some q →
       assocLookup q "cursor" = some (Json.str c)) := by
  have hresp : ∀ j pg, pages.get? j = some pg →
      serverOf key pages (0 + j) = pageResp key pg := by
    intro j pg hj
    rw [List.get?_eq_getElem?] at hj
    simp [serverOf, hj]
  have hmain := paginated_loop_server (serverOf key pages) key (some key)
    SrvPage.items hk2 (fun pg => extractItems_some_pageBody key pg hk1)
    pages none params [] 0 0 [] [] fuel hne hgc hfuel hresp
  have hsent : (paginated_get (serverOf key pages) params (some key) fuel).sent
      = paramsTrace params none pages := by
    rw [paginated_get, hmain]
    simp
  constructor
  · intro q hq
    rw [hsent] at hq
    have := paramsTrace_head_eq pages params none q hq
    rw [this]
    exact hcur
  · intro j pg c q hj hn hq
    rw [hsent] at hq
    exact paramsTrace_succ_cursor pages params none j pg c q hj hn hq

/-- C7, witness: in the two-page run the first request has no cursor and
the second carries the first page's token. -/
theorem c7_witness :
    assocLookup chParams "cursor" = none ∧
    assocLookup [("channel", Json.str "C123"), ("cursor", Json.str "c1")] "cursor"
      = some (Json.str "c1") :=
  ⟨(c7_request_shape "messages" twoPages chParams 2 (by decide) (by decide)
      (by simp [twoPages]) rfl (by decide) rfl).1 chParams rfl,
   (c7_request_shape "messages" twoPages chParams 2 (by decide) (by decide)
      (by simp [twoPages]) rfl (by decide) rfl).2 0
      ⟨[Json.num 1, Json.num 2], some "c1"⟩ "c1"
      [("channel", Json.str "C123"), ("cursor", Json.str "c1")] rfl rfl rfl⟩

/-- C8, counterexample: with no combine key the loop runs
`result.extend(data)` on the decoded page dict, which appends the dict's
keys, not the page body: the single-page run yields `["ok"]`, whose sole
element is not the page payload. -/
theorem c8_counterexample :
    (paginated_get bareOkServer chParams none 1).out = .ok [Json.str "ok"] ∧
    Json.str "ok" ≠ okBody :=
  ⟨rfl, fun h => Json.noConfusion h⟩

/-- C8, as amended: when no item key is given, each page extends the
result with the page object's keys in insertion order, so the returned
sequence is the in-order concatenation of the pages' key lists (not of
the page payloads themselves). -/
theorem c8_amended (key : String) (pages : List SrvPage) (params : Params)
    (fuel : Nat) (hk2 : key ≠ "response_metadata") (hne : pages ≠ [])
    (hgc : goodChain pages = true) (hfuel : pages.length ≤ fuel) :
    (paginated_get (serverOf key pages) params none fuel).out
      = .ok ((pages.map (fun pg => objKeys (pageBody key pg))).flatten) := by
  have hresp : ∀ j pg, pages.get? j = some pg →
      serverOf key pages (0 + j) = pageResp key pg := by
    intro j pg hj
    rw [List.get?_eq_getElem?] at hj
    simp [serverOf, hj]
  have hmain := paginated_loop_server (serverOf key pages) key none
    (fun pg => objKeys (pageBody key pg)) hk2
    (fun pg => extractItems_none_pageBody key pg)
    pages none params [] 0 0 [] [] fuel hne hgc hfuel hresp
  rw [paginated_get, hmain]
  simp

/-- C8, witness: the two-page run without a combine key returns the two
pages' key lists concatenated. -/
theorem c8_witness :
    (paginated_get (serverOf "messages" twoPages) chParams none 2).out
      = .ok ((twoPages.map (fun pg => objKeys (pageBody "messages" pg))).flatten) :=
  c8_amended "messages" twoPages chParams 2 (by decide) (by simp [twoPages]) rfl
    (by decide)

/-- C9, counterexample: the caller-supplied params dict is not left
unchanged — after the two-page run it holds the `cursor` key the loop
wrote into it. -/
theorem c9_counterexample :
    (paginated_get (serverOf "messages" twoPages) chParams (some "messages") 2).params
      = [("channel", Json.str "C123"), ("cursor", Json.str "c1")] ∧
    (paginated_get (serverOf "messages" twoPages) chParams (some "messages") 2).params
      ≠ chParams :=
  ⟨rfl, fun h => absurd (congrArg List.length h) (by decide)⟩

/-- C9, as amended: the params mapping is a single dict shared across the
whole fetch and mutated in place — after the run it is the trace's last
state, holding the written cursor — while successive page requests differ
by exactly the cursor entry: each later request's dict is the previous
one with only the `cursor` key rewritten to the preceding page's token,
every other key reading back unchanged. -/
theorem c9_amended (key : String) (pages : List SrvPage) (params : Params)
    (fuel : Nat)
    (hk1 : key ≠ "ok") (hk2 : key ≠ "response_metadata")
    (hne : pages ≠ []) (hgc : goodChain pages = true)
    (hfuel : pages.length ≤ fuel) :
    (paginated_get (serverOf key pages) params (some key) fuel).params
      = lastParams params none pages ∧
    (∀ j pg c q q', pages.get? j = some pg → pg.next = some c →
       (paginated_get (serverOf key pages) params (some key) fuel).sent.get? j
         = some q →
       (paginated_get (serverOf key pages) params (some key) fuel).sent.get? (j + 1)
         = some q' →
       q' = dictSet q "cursor" (Json.str c) ∧
       ∀ k', k' ≠ "cursor" → assocLookup q' k' = assocLookup q k') := by
  have hresp : ∀ j pg, pages.get? j = some pg →
      serverOf key pages (0 + j) = pageResp key pg := by
    intro j pg hj
    rw [List.get?_eq_getElem?] at hj
    simp [serverOf, hj]
  have hmain := paginated_loop_server (serverOf key pages) key (some key)
    SrvPage.items hk2 (fun pg => extractItems_some_pageBody key pg hk1)
    pages none params [] 0 0 [] [] fuel hne hgc hfuel hresp
  have hsent : (paginated_get (serverOf key pages) params (some key) fuel).sent
      = paramsTrace params none pages := by
    rw [paginated_get, hmain]
    simp
  constructor
  · rw [paginated_get, hmain]
  · intro j pg c q q' hj hn hq hq'
    rw [hsent] at hq hq'
    have hstep := paramsTrace_step pages params none j pg c q q' hj hn hq hq'
    refine ⟨hstep, ?_⟩
    intro k' hk'
    rw [hstep]
    exact assocLookup_dictSet_other q "cursor" (Json.str c) k' hk'

/-- C9, witness: in the two-page run the second request's dict is the
first one with the cursor written. -/
theorem c9_witness :
    ([("channel", Json.str "C123"), ("cursor", Json.str "c1")] : Params)
      = dictSet chParams "cursor" (Json.str "c1") :=
  ((c9_amended "messages" twoPages chParams 2 (by decide) (by decide)
      (by simp [twoPages]) rfl (by decide)).2 0
      ⟨[Json.num 1, Json.num 2], some "c1"⟩ "c1" chParams
      [("channel", Json.str "C123"), ("cursor", Json.str "c1")] rfl rfl rfl rfl).1
